import Mathlib

/-!
# Verification of the plantologica assessment engines

Shallow embedding of the deterministic core of the repository:

* the rule-based fallback assessment engine (`getFallbackData`, eight-field
  variant, and `getFallbackDataMin`, the historical five-field variant) from
  `src/app/api/predict/route.ts`;
* the weather impact classifier (`analyzeWeatherImpact`) from the same file;
* the optimal-range parser and condition-status classifier
  (`parseOptimalRange`, `getConditionStatus`) from `src/app/page.tsx`;
* the request handler's validation logic (`POST`) from the route file.

Numbers are modelled as rationals (the TypeScript values of interest are
small decimal literals, far from any floating-point rounding), strings as
Lean `String`s, absent/undefined fields as `Option`.
-/

namespace Plantologica

/-- A sensor reading as consumed by the eight-field fallback engine:
all eight numeric fields present (the handler has validated them),
`plantType` optional.  Mirrors `SensorData` in `src/app/type.ts`. -/
structure SensorReading where
  temperature : ℚ
  humidity : ℚ
  soilMoisture : ℚ
  ph : ℚ
  lightIntensity : ℚ
  Nitrogen : ℚ
  Phosphorus : ℚ
  Potassium : ℚ
  plantType : Option String
  deriving Repr, DecidableEq

/-- A per-plant profile of optimal-range strings (eight-field variant of
`plantOptimalConditions` in the route file). -/
structure PlantProfile where
  temperature : String
  humidity : String
  soilMoisture : String
  ph : String
  lightIntensity : String
  Nitrogen : String
  Phosphorus : String
  Potassium : String
  deriving Repr, DecidableEq

/-- The result shape returned by the fallback engine. -/
structure AssessmentResult where
  assessment : String
  problems : List String
  recommendations : List String
  optimalConditions : PlantProfile
  deriving Repr, DecidableEq

/-- The `'default'` entry of the eight-field `plantOptimalConditions` table. -/
def defaultProfile : PlantProfile :=
  { temperature := "18-25°C"
    humidity := "40-70%"
    soilMoisture := "30-60%"
    ph := "6.0-7.0"
    lightIntensity := "10000-25000 lux"
    Nitrogen := "100-200 ppm"
    Phosphorus := "40-100 ppm"
    Potassium := "100-200 ppm" }

/-- The `'tomato'` entry of the eight-field `plantOptimalConditions` table. -/
def tomatoProfile : PlantProfile :=
  { temperature := "21-27°C"
    humidity := "60-80%"
    soilMoisture := "50-70%"
    ph := "6.0-6.8"
    lightIntensity := "20000-30000 lux"
    Nitrogen := "150-250 ppm"
    Phosphorus := "60-80 ppm"
    Potassium := "200-300 ppm" }

/-- The `'lettuce'` entry of the eight-field `plantOptimalConditions` table. -/
def lettuceProfile : PlantProfile :=
  { temperature := "15-21°C"
    humidity := "50-70%"
    soilMoisture := "50-70%"
    ph := "6.0-7.0"
    lightIntensity := "10000-20000 lux"
    Nitrogen := "100-150 ppm"
    Phosphorus := "40-60 ppm"
    Potassium := "150-250 ppm" }

/-- The `'carrot'` entry of the eight-field `plantOptimalConditions` table. -/
def carrotProfile : PlantProfile :=
  { temperature := "15-21°C"
    humidity := "40-60%"
    soilMoisture := "40-60%"
    ph := "6.0-6.8"
    lightIntensity := "20000-30000 lux"
    Nitrogen := "80-120 ppm"
    Phosphorus := "50-100 ppm"
    Potassium := "150-250 ppm" }

/-- The four own entries of the eight-field `plantOptimalConditions`
object literal, as a partial map.  JavaScript bracket access additionally
traverses the prototype chain and can find truthy inherited
`Object.prototype` members; `plantTableAccess` below models the full
access. -/
def plantOptimalConditions : String → Option PlantProfile
  | "default" => some defaultProfile
  | "tomato" => some tomatoProfile
  | "lettuce" => some lettuceProfile
  | "carrot" => some carrotProfile
  | _ => none

/-- JavaScript `String.prototype.toLowerCase()` modelled character by character (the
table keys are ASCII, where JavaScript and Unicode simple lowering agree). -/
def strToLower (s : String) : String := ⟨s.data.map Char.toLower⟩

/-- Resolution `sensorData.plantType?.toLowerCase() || 'default'`: optional chaining
yields `undefined` (falsy) when `plantType` is absent, and the empty string
(also falsy) lower-cases to the empty string; both fall through `||` to
`'default'`. -/
def resolvePlantKey (plantType : Option String) : String :=
  match plantType with
  | none => "default"
  | some s => if strToLower s = "" then "default" else strToLower s

/-- One threshold block of the fallback engine:
`if lowFired { push lowRec; assessment = lowHead } else if highFired { push
highRec; assessment = highHead }`, acting on the
(recommendations, assessment) state. -/
def thresholdStep (lowFired highFired : Bool) (lowRec lowHead highRec highHead : String)
    (st : List String × String) : List String × String :=
  if lowFired then (st.1 ++ [lowRec], lowHead)
  else if highFired then (st.1 ++ [highRec], highHead)
  else st

/-- The eight-field fallback assessment engine `getFallbackData` from
`src/app/api/predict/route.ts` (lines 336-461): seven threshold blocks in
source order (pH, soil moisture, temperature, light, nitrogen, phosphorus,
potassium), each appending one recommendation and overwriting the
assessment, then the empty-list default. -/
def getFallbackData (sensorData : SensorReading) : AssessmentResult :=
  let plantType := resolvePlantKey sensorData.plantType
  let optimalConditions := (plantOptimalConditions plantType).getD defaultProfile
  let st : List String × String := ([], "Conditions appear generally favorable")
  let st := thresholdStep (sensorData.ph < 5.5) (sensorData.ph > 7.5)
    "Add lime to increase soil pH level (currently too acidic)" "Soil is too acidic"
    "Add sulfur or organic matter to decrease soil pH (currently too alkaline)" "Soil is too alkaline" st
  let st := thresholdStep (sensorData.soilMoisture < 30) (sensorData.soilMoisture > 70)
    "Water plants thoroughly as soil moisture is low" "Soil moisture is insufficient"
    "Reduce watering to prevent root rot" "Soil is too wet" st
  let st := thresholdStep (sensorData.temperature < 15) (sensorData.temperature > 30)
    "Consider using plant covers to protect from cold" "Temperature is too low for optimal growth"
    "Provide shade during hottest parts of the day" "Temperature is too high for optimal growth" st
  let st := thresholdStep (sensorData.lightIntensity < 10000) (sensorData.lightIntensity > 30000)
    "Increase light exposure or consider artificial lighting" "Light intensity is insufficient"
    "Provide some shading to prevent light stress" "Light intensity is excessive" st
  let st := thresholdStep (sensorData.Nitrogen < 80) (sensorData.Nitrogen > 250)
    "Add a nitrogen-rich fertilizer to boost leaf growth." "Nitrogen levels are low"
    "Reduce nitrogen application to prevent burn and encourage fruiting." "Nitrogen levels are too high" st
  let st := thresholdStep (sensorData.Phosphorus < 40) (sensorData.Phosphorus > 100)
    "Apply a phosphorus supplement to improve root and flower development." "Phosphorus levels are low"
    "Avoid phosphorus fertilizers for now." "Phosphorus levels are too high" st
  let st := thresholdStep (sensorData.Potassium < 100) (sensorData.Potassium > 250)
    "Supplement with potassium to enhance overall plant vigor and disease resistance." "Potassium levels are low"
    "Leach soil with water to reduce high potassium levels." "Potassium levels are too high" st
  let recommendations := if st.1.isEmpty then
    ["Conditions appear generally favorable. Monitor regularly."] else st.1
  { assessment := st.2
    problems := ["Unable to get AI analysis due to API issues"]
    recommendations := recommendations
    optimalConditions := optimalConditions }

/-- Spec-side description of one threshold block: the (recommendation,
headline) pair it contributes when it fires (empty when it does not). -/
def thresholdChecks (lowFired highFired : Bool) (lowRec lowHead highRec highHead : String) :
    List (String × String) :=
  if lowFired then [(lowRec, lowHead)]
  else if highFired then [(highRec, highHead)]
  else []

/-- Spec-side description of the fallback engine's rule pass: the ordered
list of fired checks (pH, soil moisture, temperature, light intensity,
nitrogen, phosphorus, potassium), each as its (recommendation, headline)
pair. -/
def firedChecks (s : SensorReading) : List (String × String) :=
  thresholdChecks (s.ph < 5.5) (s.ph > 7.5)
    "Add lime to increase soil pH level (currently too acidic)" "Soil is too acidic"
    "Add sulfur or organic matter to decrease soil pH (currently too alkaline)" "Soil is too alkaline" ++
  thresholdChecks (s.soilMoisture < 30) (s.soilMoisture > 70)
    "Water plants thoroughly as soil moisture is low" "Soil moisture is insufficient"
    "Reduce watering to prevent root rot" "Soil is too wet" ++
  thresholdChecks (s.temperature < 15) (s.temperature > 30)
    "Consider using plant covers to protect from cold" "Temperature is too low for optimal growth"
    "Provide shade during hottest parts of the day" "Temperature is too high for optimal growth" ++
  thresholdChecks (s.lightIntensity < 10000) (s.lightIntensity > 30000)
    "Increase light exposure or consider artificial lighting" "Light intensity is insufficient"
    "Provide some shading to prevent light stress" "Light intensity is excessive" ++
  thresholdChecks (s.Nitrogen < 80) (s.Nitrogen > 250)
    "Add a nitrogen-rich fertilizer to boost leaf growth." "Nitrogen levels are low"
    "Reduce nitrogen application to prevent burn and encourage fruiting." "Nitrogen levels are too high" ++
  thresholdChecks (s.Phosphorus < 40) (s.Phosphorus > 100)
    "Apply a phosphorus supplement to improve root and flower development." "Phosphorus levels are low"
    "Avoid phosphorus fertilizers for now." "Phosphorus levels are too high" ++
  thresholdChecks (s.Potassium < 100) (s.Potassium > 250)
    "Supplement with potassium to enhance overall plant vigor and disease resistance." "Potassium levels are low"
    "Leach soil with water to reduce high potassium levels." "Potassium levels are too high"

/-- One threshold block transforms the (recommendations, assessment) state
exactly by appending the fired check's recommendation and taking the fired
check's headline (keeping the old assessment when nothing fired). -/
theorem thresholdStep_eq (l h : Bool) (lr lh hr hh : String) (st : List String × String) :
    thresholdStep l h lr lh hr hh st =
      (st.1 ++ (thresholdChecks l h lr lh hr hh).map Prod.fst,
       (thresholdChecks l h lr lh hr hh).foldl (fun _ c => c.2) st.2) := by
  cases l <;> cases h <;> simp [thresholdStep, thresholdChecks]

/-- Helper: the fallback engine, expressed through the ordered list of
fired checks. -/
theorem getFallbackData_spec (s : SensorReading) :
    getFallbackData s =
      { assessment :=
          (firedChecks s).foldl (fun _ c => c.2) "Conditions appear generally favorable"
        problems := ["Unable to get AI analysis due to API issues"]
        recommendations :=
          if firedChecks s = [] then
            ["Conditions appear generally favorable. Monitor regularly."]
          else (firedChecks s).map Prod.fst
        optimalConditions :=
          (plantOptimalConditions (resolvePlantKey s.plantType)).getD defaultProfile } := by
  unfold getFallbackData firedChecks
  simp only [thresholdStep_eq, List.nil_append, List.map_append, List.append_assoc,
    List.foldl_append, List.isEmpty_iff, List.map_eq_nil_iff, List.append_eq_nil]

/-- A block whose low cutoff fired contributes exactly its low pair. -/
theorem thresholdChecks_low {bl : Bool} (bh : Bool) (hl : bl = true)
    (lr lh hr hh : String) : thresholdChecks bl bh lr lh hr hh = [(lr, lh)] := by
  subst hl; simp [thresholdChecks]

/-- A block with neither cutoff exceeded contributes nothing. -/
theorem thresholdChecks_nil {bl bh : Bool} (hl : bl = false) (hh : bh = false)
    (lr lh hr hh' : String) : thresholdChecks bl bh lr lh hr hh' = [] := by
  subst hl; subst hh; simp [thresholdChecks]

/-- C1: the fallback engine evaluates its threshold checks in the fixed
order pH, soil moisture, temperature, light intensity, nitrogen,
phosphorus, potassium; each fired check appends exactly one fixed
recommendation in that order, and the assessment headline is that of the
last fired check (last problem wins), defaulting to "Conditions appear
generally favorable" when none fired. -/
theorem getFallbackData_ordered_checks (s : SensorReading) :
    getFallbackData s =
      { assessment :=
          (firedChecks s).foldl (fun _ c => c.2) "Conditions appear generally favorable"
        problems := ["Unable to get AI analysis due to API issues"]
        recommendations :=
          if firedChecks s = [] then
            ["Conditions appear generally favorable. Monitor regularly."]
          else (firedChecks s).map Prod.fst
        optimalConditions :=
          (plantOptimalConditions (resolvePlantKey s.plantType)).getD defaultProfile } :=
  getFallbackData_spec s

/-- Helper: with all seven monitored quantities within their cutoffs
(boundaries included), no check fires. -/
theorem firedChecks_nil_of_in_range (s : SensorReading)
    (h1 : 5.5 ≤ s.ph) (h2 : s.ph ≤ 7.5)
    (h3 : 30 ≤ s.soilMoisture) (h4 : s.soilMoisture ≤ 70)
    (h5 : 15 ≤ s.temperature) (h6 : s.temperature ≤ 30)
    (h7 : 10000 ≤ s.lightIntensity) (h8 : s.lightIntensity ≤ 30000)
    (h9 : 80 ≤ s.Nitrogen) (h10 : s.Nitrogen ≤ 250)
    (h11 : 40 ≤ s.Phosphorus) (h12 : s.Phosphorus ≤ 100)
    (h13 : 100 ≤ s.Potassium) (h14 : s.Potassium ≤ 250) :
    firedChecks s = [] := by
  simp [firedChecks, thresholdChecks,
    not_lt.mpr h1, not_lt.mpr h2, not_lt.mpr h3, not_lt.mpr h4,
    not_lt.mpr h5, not_lt.mpr h6, not_lt.mpr h7, not_lt.mpr h8,
    not_lt.mpr h9, not_lt.mpr h10, not_lt.mpr h11, not_lt.mpr h12,
    not_lt.mpr h13, not_lt.mpr h14]

/-- C2: when all seven monitored quantities lie within the fixed cutoffs
(boundary values included, since all comparisons are strict), the fallback
engine returns exactly the single "monitor regularly" recommendation and
the favorable assessment. -/
theorem getFallbackData_all_in_range (s : SensorReading)
    (h1 : 5.5 ≤ s.ph) (h2 : s.ph ≤ 7.5)
    (h3 : 30 ≤ s.soilMoisture) (h4 : s.soilMoisture ≤ 70)
    (h5 : 15 ≤ s.temperature) (h6 : s.temperature ≤ 30)
    (h7 : 10000 ≤ s.lightIntensity) (h8 : s.lightIntensity ≤ 30000)
    (h9 : 80 ≤ s.Nitrogen) (h10 : s.Nitrogen ≤ 250)
    (h11 : 40 ≤ s.Phosphorus) (h12 : s.Phosphorus ≤ 100)
    (h13 : 100 ≤ s.Potassium) (h14 : s.Potassium ≤ 250) :
    (getFallbackData s).recommendations =
      ["Conditions appear generally favorable. Monitor regularly."] ∧
    (getFallbackData s).assessment = "Conditions appear generally favorable" := by
  rw [getFallbackData_spec s,
    firedChecks_nil_of_in_range s h1 h2 h3 h4 h5 h6 h7 h8 h9 h10 h11 h12 h13 h14]
  simp

/-- Witness for C2 at a concrete in-range reading. -/
theorem getFallbackData_all_in_range_witness :
    (getFallbackData
      { temperature := 20, humidity := 50, soilMoisture := 45, ph := 6.8,
        lightIntensity := 18000, Nitrogen := 150, Phosphorus := 60,
        Potassium := 200, plantType := none }).recommendations =
      ["Conditions appear generally favorable. Monitor regularly."] ∧
    (getFallbackData
      { temperature := 20, humidity := 50, soilMoisture := 45, ph := 6.8,
        lightIntensity := 18000, Nitrogen := 150, Phosphorus := 60,
        Potassium := 200, plantType := none }).assessment =
      "Conditions appear generally favorable" :=
  getFallbackData_all_in_range _
    (by norm_num) (by norm_num) (by norm_num) (by norm_num) (by norm_num)
    (by norm_num) (by norm_num) (by norm_num) (by norm_num) (by norm_num)
    (by norm_num) (by norm_num) (by norm_num) (by norm_num)

/-- An acidic reading in which the soil-moisture check also fires. -/
def acidicWetInput : SensorReading :=
  { temperature := 20, humidity := 50, soilMoisture := 20, ph := 5,
    lightIntensity := 15000, Nitrogen := 150, Phosphorus := 70,
    Potassium := 150, plantType := none }

/-- C3 counterexample: a reading with pH < 5.5 whose returned assessment is
not "Soil is too acidic" — the later soil-moisture check overwrote the
headline. -/
theorem ph_acidic_assessment_cex :
    acidicWetInput.ph < 5.5 ∧
    (getFallbackData acidicWetInput).assessment ≠ "Soil is too acidic" := by
  constructor
  · norm_num [acidicWetInput]
  · decide

/-- All monitored quantities other than pH within their fixed cutoffs. -/
def withinCutoffsExceptPh (s : SensorReading) : Prop :=
  30 ≤ s.soilMoisture ∧ s.soilMoisture ≤ 70 ∧
  15 ≤ s.temperature ∧ s.temperature ≤ 30 ∧
  10000 ≤ s.lightIntensity ∧ s.lightIntensity ≤ 30000 ∧
  80 ≤ s.Nitrogen ∧ s.Nitrogen ≤ 250 ∧
  40 ≤ s.Phosphorus ∧ s.Phosphorus ≤ 100 ∧
  100 ≤ s.Potassium ∧ s.Potassium ≤ 250

/-- C3 (amended): for pH < 5.5 the lime recommendation is always in the
returned list; the assessment equals "Soil is too acidic" (resp. "Soil is
too alkaline" for pH > 7.5) provided no later check fires, i.e. the six
other monitored quantities lie within their cutoffs. -/
theorem fallback_ph_rules (s : SensorReading) :
    (s.ph < 5.5 →
      "Add lime to increase soil pH level (currently too acidic)" ∈
        (getFallbackData s).recommendations) ∧
    (withinCutoffsExceptPh s →
      (s.ph < 5.5 → (getFallbackData s).assessment = "Soil is too acidic") ∧
      (s.ph > 7.5 → (getFallbackData s).assessment = "Soil is too alkaline")) := by
  constructor
  · intro hph
    rw [getFallbackData_spec s]
    unfold firedChecks
    rw [thresholdChecks_low _ (by simpa using hph)]
    simp
  · rintro ⟨h3, h4, h5, h6, h7, h8, h9, h10, h11, h12, h13, h14⟩
    constructor
    · intro hph
      have hfc : firedChecks s =
          [("Add lime to increase soil pH level (currently too acidic)",
            "Soil is too acidic")] := by
        have hph2 : ¬ s.ph > 7.5 := not_lt.mpr (le_of_lt (lt_trans hph (by norm_num)))
        simp [firedChecks, thresholdChecks, hph, hph2,
          not_lt.mpr h3, not_lt.mpr h4, not_lt.mpr h5, not_lt.mpr h6,
          not_lt.mpr h7, not_lt.mpr h8, not_lt.mpr h9, not_lt.mpr h10,
          not_lt.mpr h11, not_lt.mpr h12, not_lt.mpr h13, not_lt.mpr h14]
      rw [getFallbackData_spec s, hfc]
      rfl
    · intro hph
      have hfc : firedChecks s =
          [("Add sulfur or organic matter to decrease soil pH (currently too alkaline)",
            "Soil is too alkaline")] := by
        have hph2 : ¬ s.ph < 5.5 := not_lt.mpr (le_of_lt (lt_trans (by norm_num) hph))
        simp [firedChecks, thresholdChecks, hph, hph2,
          not_lt.mpr h3, not_lt.mpr h4, not_lt.mpr h5, not_lt.mpr h6,
          not_lt.mpr h7, not_lt.mpr h8, not_lt.mpr h9, not_lt.mpr h10,
          not_lt.mpr h11, not_lt.mpr h12, not_lt.mpr h13, not_lt.mpr h14]
      rw [getFallbackData_spec s, hfc]
      rfl

/-- Witness for the amended C3 at a concrete acidic, otherwise-in-range
reading. -/
theorem fallback_ph_rules_witness :
    "Add lime to increase soil pH level (currently too acidic)" ∈
      (getFallbackData
        { temperature := 20, humidity := 50, soilMoisture := 45, ph := 5,
          lightIntensity := 15000, Nitrogen := 150, Phosphorus := 70,
          Potassium := 150, plantType := none }).recommendations ∧
    (getFallbackData
      { temperature := 20, humidity := 50, soilMoisture := 45, ph := 5,
        lightIntensity := 15000, Nitrogen := 150, Phosphorus := 70,
        Potassium := 150, plantType := none }).assessment = "Soil is too acidic" :=
  ⟨(fallback_ph_rules _).1 (by norm_num),
   ((fallback_ph_rules _).2 (by norm_num [withinCutoffsExceptPh])).1 (by norm_num)⟩

/-- A value read by JavaScript bracket access from the
`plantOptimalConditions` object literal: an own profile entry, a truthy
member inherited from `Object.prototype`, or `undefined` when the key is
absent from the whole prototype chain. -/
inductive JsLookupResult where
  | profile (p : PlantProfile)
  | inheritedMember (name : String)
  | undefinedValue
  deriving Repr, DecidableEq

/-- The all-lowercase own property names of `Object.prototype` — the only
inherited members reachable through a lower-cased key.  `constructor` is
the `Object` function and `__proto__` is `Object.prototype` itself, both
truthy; every other `Object.prototype` member name (`hasOwnProperty`,
`toString`, `valueOf`, ...) contains an upper-case letter and cannot equal
a lower-cased plant type. -/
def lowercaseObjectPrototypeKeys : List String := ["constructor", "__proto__"]

/-- Full JavaScript bracket access `plantOptimalConditions[key]`: own
entries first, then the inherited `Object.prototype` members, then
`undefined`. -/
def plantTableAccess (key : String) : JsLookupResult :=
  match plantOptimalConditions key with
  | some p => .profile p
  | none =>
    if key ∈ lowercaseObjectPrototypeKeys then .inheritedMember key
    else .undefinedValue

/-- Resolution `plantOptimalConditions[plantType] ||
plantOptimalConditions['default']` with faithful bracket-access semantics:
own profiles and inherited members are truthy JavaScript values, so only
`undefined` falls through `||` to the default entry. -/
def jsOptimalConditions (plantType : Option String) : JsLookupResult :=
  match plantTableAccess (resolvePlantKey plantType) with
  | .undefinedValue => .profile defaultProfile
  | r => r

/-- C4 counterexample: "constructor" is not one of the four recognized
keys, yet bracket access finds the truthy inherited
`Object.prototype.constructor`, so the `||` fallback never applies and the
resolved optimal conditions are that inherited member, not the default
profile. -/
theorem plant_profile_prototype_cex :
    plantOptimalConditions (strToLower "constructor") = none ∧
    jsOptimalConditions (some "constructor") ≠ JsLookupResult.profile defaultProfile ∧
    jsOptimalConditions (some "constructor") =
      JsLookupResult.inheritedMember "constructor" := by
  decide

/-- C4 (amended): plant-profile resolution is case-insensitive exact
own-key lookup; an absent, empty, or unrecognized plant type falls back to
the default profile unless its lower-casing names an all-lowercase
inherited `Object.prototype` member ("constructor" or "__proto__"), in
which case that truthy inherited member is returned instead of a profile.
"TOMATO", "Tomato" and "tomato" resolve to the tomato profile, "kumquat"
to the default one, and whenever the faithful lookup yields a profile the
fallback engine's returned optimalConditions is exactly that profile. -/
theorem plant_profile_resolution_js (pt : Option String) :
    (jsOptimalConditions pt =
      match pt with
      | none => .profile defaultProfile
      | some p =>
        match plantOptimalConditions (strToLower p) with
        | some prof => .profile prof
        | none =>
          if strToLower p ∈ lowercaseObjectPrototypeKeys then
            .inheritedMember (strToLower p)
          else .profile defaultProfile) ∧
    (pt = some "TOMATO" ∨ pt = some "Tomato" ∨ pt = some "tomato" →
      jsOptimalConditions pt = .profile tomatoProfile) ∧
    (pt = some "kumquat" → jsOptimalConditions pt = .profile defaultProfile) ∧
    ((pt = none ∨ pt = some "") → jsOptimalConditions pt = .profile defaultProfile) ∧
    (∀ prof, jsOptimalConditions pt = .profile prof →
      ∀ s : SensorReading, s.plantType = pt →
        (getFallbackData s).optimalConditions = prof) := by
  refine ⟨?_, ?_, ?_, ?_, ?_⟩
  · cases pt with
    | none => decide
    | some p =>
      simp only [jsOptimalConditions, plantTableAccess, resolvePlantKey]
      by_cases h0 : strToLower p = ""
      · rw [if_pos h0, h0]
        decide
      · rw [if_neg h0]
        cases hl : plantOptimalConditions (strToLower p) with
        | some prof => simp
        | none =>
          by_cases hk : strToLower p ∈ lowercaseObjectPrototypeKeys
          · simp [hk]
          · simp [hk]
  · rintro (hpt | hpt | hpt) <;> subst hpt <;> decide
  · intro hpt; subst hpt; decide
  · rintro (hpt | hpt) <;> subst hpt <;> decide
  · intro prof hjs s hs
    have hoc : (getFallbackData s).optimalConditions =
        (plantOptimalConditions (resolvePlantKey pt)).getD defaultProfile := by
      rw [getFallbackData_spec s, hs]
    cases hl : plantOptimalConditions (resolvePlantKey pt) with
    | some q =>
      have he : jsOptimalConditions pt = .profile q := by
        simp [jsOptimalConditions, plantTableAccess, hl]
      rw [he] at hjs
      injection hjs with hq
      rw [hoc, hl, hq]
      rfl
    | none =>
      by_cases hk : resolvePlantKey pt ∈ lowercaseObjectPrototypeKeys
      · have he : jsOptimalConditions pt = .inheritedMember (resolvePlantKey pt) := by
          simp [jsOptimalConditions, plantTableAccess, hl, hk]
        rw [he] at hjs
        exact (JsLookupResult.noConfusion hjs)
      · have he : jsOptimalConditions pt = .profile defaultProfile := by
          simp [jsOptimalConditions, plantTableAccess, hl, hk]
        rw [he] at hjs
        injection hjs with hq
        rw [hoc, hl, hq]
        rfl

/-- Witness for the amended C4: "TOMATO" resolves to the tomato profile,
"kumquat" to the default one, and the fallback engine returns the tomato
profile for a concrete "TOMATO" reading. -/
theorem plant_profile_resolution_js_witness :
    jsOptimalConditions (some "TOMATO") = JsLookupResult.profile tomatoProfile ∧
    jsOptimalConditions (some "kumquat") = JsLookupResult.profile defaultProfile ∧
    (getFallbackData
      { temperature := 20, humidity := 50, soilMoisture := 45, ph := 6,
        lightIntensity := 18000, Nitrogen := 150, Phosphorus := 60,
        Potassium := 200, plantType := some "TOMATO" }).optimalConditions = tomatoProfile :=
  ⟨(plant_profile_resolution_js _).2.1 (Or.inl rfl),
   (plant_profile_resolution_js _).2.2.1 rfl,
   (plant_profile_resolution_js _).2.2.2.2 tomatoProfile
     ((plant_profile_resolution_js _).2.1 (Or.inl rfl)) _ rfl⟩

/-- C10: the eight-field fallback engine never reads humidity — two
readings that differ only in the humidity field produce identical results
(assessment, problems, recommendations, optimalConditions). -/
theorem getFallbackData_humidity_independent (s₁ s₂ : SensorReading)
    (ht : s₁.temperature = s₂.temperature)
    (hsm : s₁.soilMoisture = s₂.soilMoisture)
    (hph : s₁.ph = s₂.ph)
    (hli : s₁.lightIntensity = s₂.lightIntensity)
    (hn : s₁.Nitrogen = s₂.Nitrogen)
    (hp : s₁.Phosphorus = s₂.Phosphorus)
    (hk : s₁.Potassium = s₂.Potassium)
    (hpt : s₁.plantType = s₂.plantType) :
    getFallbackData s₁ = getFallbackData s₂ := by
  cases s₁
  cases s₂
  simp only at ht hsm hph hli hn hp hk hpt
  subst ht; subst hsm; subst hph; subst hli; subst hn; subst hp; subst hk; subst hpt
  rfl

/-- Witness for C10: two concrete readings differing only in humidity. -/
theorem getFallbackData_humidity_independent_witness :
    getFallbackData
      { temperature := 12, humidity := 5, soilMoisture := 45, ph := 6.8,
        lightIntensity := 18000, Nitrogen := 150, Phosphorus := 60,
        Potassium := 200, plantType := some "tomato" } =
    getFallbackData
      { temperature := 12, humidity := 95, soilMoisture := 45, ph := 6.8,
        lightIntensity := 18000, Nitrogen := 150, Phosphorus := 60,
        Potassium := 200, plantType := some "tomato" } :=
  getFallbackData_humidity_independent _ _ rfl rfl rfl rfl rfl rfl rfl rfl

/-! ## The historical five-field variant of the fallback engine
(`getFallbackData` at lines 12-98 of the route file): no NPK fields, and a
five-entry profile table. -/

/-- A sensor reading for the five-field variant (no NPK fields). -/
structure SensorReadingMin where
  temperature : ℚ
  humidity : ℚ
  soilMoisture : ℚ
  ph : ℚ
  lightIntensity : ℚ
  plantType : Option String
  deriving Repr, DecidableEq

/-- A per-plant profile for the five-field variant. -/
structure PlantProfileMin where
  temperature : String
  humidity : String
  soilMoisture : String
  ph : String
  lightIntensity : String
  deriving Repr, DecidableEq

/-- The result shape of the five-field fallback engine. -/
structure AssessmentResultMin where
  assessment : String
  problems : List String
  recommendations : List String
  optimalConditions : PlantProfileMin
  deriving Repr, DecidableEq

/-- The `'default'` entry of the five-field table. -/
def defaultProfileMin : PlantProfileMin :=
  { temperature := "18-25°C", humidity := "40-70%", soilMoisture := "30-60%",
    ph := "6.0-7.0", lightIntensity := "10000-25000 lux" }

/-- The `'tomato'` entry of the five-field table. -/
def tomatoProfileMin : PlantProfileMin :=
  { temperature := "21-27°C", humidity := "60-80%", soilMoisture := "50-70%",
    ph := "6.0-6.8", lightIntensity := "20000-30000 lux" }

/-- The `'lettuce'` entry of the five-field table. -/
def lettuceProfileMin : PlantProfileMin :=
  { temperature := "15-21°C", humidity := "50-70%", soilMoisture := "50-70%",
    ph := "6.0-7.0", lightIntensity := "10000-20000 lux" }

/-- The `'carrot'` entry of the five-field table. -/
def carrotProfileMin : PlantProfileMin :=
  { temperature := "15-21°C", humidity := "40-60%", soilMoisture := "40-60%",
    ph := "6.0-6.8", lightIntensity := "20000-30000 lux" }

/-- The four own entries of the five-field `plantOptimalConditions` object
literal, as a partial map.  As with the eight-field table, JavaScript
bracket access can also reach the inherited `Object.prototype` members for
the lower-cased keys "constructor" and "__proto__"; the scenario proved
below resolves the own key "tomato", where own-entry lookup and full
bracket access agree. -/
def plantOptimalConditionsMin : String → Option PlantProfileMin
  | "default" => some defaultProfileMin
  | "tomato" => some tomatoProfileMin
  | "lettuce" => some lettuceProfileMin
  | "carrot" => some carrotProfileMin
  | _ => none

/-- The five-field fallback assessment engine (`getFallbackData`, lines
12-98 of the route file): four threshold blocks (pH, soil moisture,
temperature, light intensity) and the empty-list default. -/
def getFallbackDataMin (sensorData : SensorReadingMin) : AssessmentResultMin :=
  let plantType := resolvePlantKey sensorData.plantType
  let optimalConditions := (plantOptimalConditionsMin plantType).getD defaultProfileMin
  let st : List String × String := ([], "Conditions appear generally favorable")
  let st := thresholdStep (sensorData.ph < 5.5) (sensorData.ph > 7.5)
    "Add lime to increase soil pH level (currently too acidic)" "Soil is too acidic"
    "Add sulfur or organic matter to decrease soil pH (currently too alkaline)" "Soil is too alkaline" st
  let st := thresholdStep (sensorData.soilMoisture < 30) (sensorData.soilMoisture > 70)
    "Water plants thoroughly as soil moisture is low" "Soil moisture is insufficient"
    "Reduce watering to prevent root rot" "Soil is too wet" st
  let st := thresholdStep (sensorData.temperature < 15) (sensorData.temperature > 30)
    "Consider using plant covers to protect from cold" "Temperature is too low for optimal growth"
    "Provide shade during hottest parts of the day" "Temperature is too high for optimal growth" st
  let st := thresholdStep (sensorData.lightIntensity < 10000) (sensorData.lightIntensity > 30000)
    "Increase light exposure or consider artificial lighting" "Light intensity is insufficient"
    "Provide some shading to prevent light stress" "Light intensity is excessive" st
  let recommendations := if st.1.isEmpty then
    ["Conditions appear generally favorable. Monitor regularly."] else st.1
  { assessment := st.2
    problems := ["Unable to get AI analysis due to API issues"]
    recommendations := recommendations
    optimalConditions := optimalConditions }

/-- C9: on the spec's scenario input (temperature 12, humidity 50, soil
moisture 45, pH 6.8, light 18000, plant type "tomato", NPK absent) the
five-field fallback engine fires only the temperature-low rule: assessment
"Temperature is too low for optimal growth", only the cold-protection
recommendation, and the tomato profile as optimal conditions. -/
theorem getFallbackDataMin_cold_tomato_scenario :
    getFallbackDataMin
      { temperature := 12, humidity := 50, soilMoisture := 45, ph := 6.8,
        lightIntensity := 18000, plantType := some "tomato" } =
      { assessment := "Temperature is too low for optimal growth"
        problems := ["Unable to get AI analysis due to API issues"]
        recommendations := ["Consider using plant covers to protect from cold"]
        optimalConditions := tomatoProfileMin } := by
  have e1 : (decide ((6.8 : ℚ) < 5.5)) = false := by norm_num
  have e2 : (decide ((6.8 : ℚ) > 7.5)) = false := by norm_num
  simp only [getFallbackDataMin, e1, e2]
  decide

/-! ## The weather impact classifier (`analyzeWeatherImpact`, lines
259-333 of the route file). -/

/-- The risk level, ordered low < medium < high. -/
inductive RiskLevel where
  | low
  | medium
  | high
  deriving Repr, DecidableEq

/-- Numeric severity of a risk level (for stating monotonicity). -/
def RiskLevel.toNat : RiskLevel → Nat
  | .low => 0
  | .medium => 1
  | .high => 2

/-- A weather snapshot as produced by the weather lookup (`WeatherData` in
`src/app/type.ts`). -/
structure WeatherData where
  temperature : ℚ
  humidity : ℚ
  description : String
  windSpeed : ℚ
  pressure : ℚ
  visibility : ℚ
  uvIndex : Option ℚ
  location : String
  timestamp : String
  deriving Repr, DecidableEq

/-- The classifier's result (`WeatherImpact` in `src/app/type.ts`); also
the accumulator state threaded through the rules. -/
structure WeatherImpact where
  riskLevel : RiskLevel
  issues : List String
  recommendations : List String
  weatherAlerts : List String
  deriving Repr, DecidableEq

/-- Temperature rule block (user-supplied temperature): frost below 5,
heat above 35 (both risk high), suboptimal outside 10..30 (risk medium). -/
def tempRule (userTemp : ℚ) (st : WeatherImpact) : WeatherImpact :=
  if userTemp < 5 then
    { st with
      issues := st.issues ++ ["Frost risk - temperatures below 5°C"]
      weatherAlerts := st.weatherAlerts ++ ["FROST WARNING: Protect plants from freezing temperatures"]
      recommendations := st.recommendations ++ ["Cover plants with frost cloth or move indoors"]
      riskLevel := .high }
  else if userTemp > 35 then
    { st with
      issues := st.issues ++ ["Heat stress - temperatures above 35°C"]
      weatherAlerts := st.weatherAlerts ++ ["HEAT WARNING: High temperatures may stress plants"]
      recommendations := st.recommendations ++ ["Increase watering frequency and provide shade"]
      riskLevel := .high }
  else if userTemp < 10 ∨ userTemp > 30 then
    { st with
      issues := st.issues ++ ["Suboptimal temperature range"]
      recommendations := st.recommendations ++ ["Monitor plant health closely due to temperature stress"]
      riskLevel := .medium }
  else st

/-- Humidity rule block (user-supplied humidity): above 90 or below 30,
risk at least medium (`riskLevel === 'high' ? 'high' : 'medium'`). -/
def humidityRule (userHumidity : ℚ) (st : WeatherImpact) : WeatherImpact :=
  if userHumidity > 90 then
    { st with
      issues := st.issues ++ ["Excessive humidity - risk of fungal diseases"]
      recommendations := st.recommendations ++ ["Improve air circulation and avoid overhead watering"]
      riskLevel := if st.riskLevel = .high then .high else .medium }
  else if userHumidity < 30 then
    { st with
      issues := st.issues ++ ["Low humidity - plants may dry out quickly"]
      recommendations := st.recommendations ++ ["Increase watering frequency and consider misting"]
      riskLevel := if st.riskLevel = .high then .high else .medium }
  else st

/-- Wind rule block: wind speed above 15 m/s, risk at least medium. -/
def windRule (w : WeatherData) (st : WeatherImpact) : WeatherImpact :=
  if w.windSpeed > 15 then
    { st with
      issues := st.issues ++ ["High wind speeds - may damage plants"]
      weatherAlerts := st.weatherAlerts ++ ["WIND WARNING: Strong winds may damage plants"]
      recommendations := st.recommendations ++ ["Stake tall plants and protect from wind damage"]
      riskLevel := if st.riskLevel = .high then .high else .medium }
  else st

/-- Pressure rule block: below 1000 hPa, risk set to high unconditionally. -/
def pressureRule (w : WeatherData) (st : WeatherImpact) : WeatherImpact :=
  if w.pressure < 1000 then
    { st with
      issues := st.issues ++ ["Low atmospheric pressure - storm conditions possible"]
      weatherAlerts := st.weatherAlerts ++ ["STORM WARNING: Low pressure indicates potential severe weather"]
      recommendations := st.recommendations ++ ["Secure loose items and prepare for heavy rain"]
      riskLevel := .high }
  else st

/-- UV rule block: `weatherData.uvIndex && weatherData.uvIndex > 8` — the
JavaScript truthiness test skips the rule when the index is absent, null,
or zero. -/
def uvRule (w : WeatherData) (st : WeatherImpact) : WeatherImpact :=
  match w.uvIndex with
  | none => st
  | some u =>
    if u ≠ 0 ∧ u > 8 then
      { st with
        issues := st.issues ++ ["High UV index - may cause sunburn on plants"]
        recommendations := st.recommendations ++ ["Provide shade during peak sun hours"]
        riskLevel := if st.riskLevel = .high then .high else .medium }
    else st

/-- Visibility rule block: below 1 km, risk at least medium. -/
def visibilityRule (w : WeatherData) (st : WeatherImpact) : WeatherImpact :=
  if w.visibility < 1 then
    { st with
      issues := st.issues ++ ["Poor visibility - foggy conditions may affect photosynthesis"]
      recommendations := st.recommendations ++ ["Monitor for signs of reduced light absorption"]
      riskLevel := if st.riskLevel = .high then .high else .medium }
  else st

/-- The weather impact classifier `analyzeWeatherImpact`: risk starts low,
then temperature, humidity, wind, pressure, UV and visibility rules run in
that fixed order. -/
def analyzeWeatherImpact (weatherData : WeatherData) (sensorData : SensorReading) : WeatherImpact :=
  let st : WeatherImpact :=
    { riskLevel := .low, issues := [], recommendations := [], weatherAlerts := [] }
  let st := tempRule sensorData.temperature st
  let st := humidityRule sensorData.humidity st
  let st := windRule weatherData st
  let st := pressureRule weatherData st
  let st := uvRule weatherData st
  let st := visibilityRule weatherData st
  st

/-- The risk level after each of the classifier's rule blocks, starting
with the initial low. -/
def riskTrace (weatherData : WeatherData) (sensorData : SensorReading) : List RiskLevel :=
  let st0 : WeatherImpact :=
    { riskLevel := .low, issues := [], recommendations := [], weatherAlerts := [] }
  let st1 := tempRule sensorData.temperature st0
  let st2 := humidityRule sensorData.humidity st1
  let st3 := windRule weatherData st2
  let st4 := pressureRule weatherData st3
  let st5 := uvRule weatherData st4
  let st6 := visibilityRule weatherData st5
  [st0.riskLevel, st1.riskLevel, st2.riskLevel, st3.riskLevel,
   st4.riskLevel, st5.riskLevel, st6.riskLevel]

/-- Any risk level is at most high. -/
theorem riskLevel_le_high (r : RiskLevel) : r.toNat ≤ RiskLevel.high.toNat := by
  cases r <;> simp [RiskLevel.toNat]

/-- The at-least-medium escalation (`riskLevel === 'high' ? 'high' :
'medium'`) never lowers the risk level. -/
theorem riskLevel_le_bump (r : RiskLevel) :
    r.toNat ≤ (if r = RiskLevel.high then RiskLevel.high else RiskLevel.medium).toNat := by
  cases r <;> simp [RiskLevel.toNat]

/-- The at-least-medium escalation maps high to high. -/
theorem riskLevel_bump_high (r : RiskLevel) (hr : r = RiskLevel.high) :
    (if r = RiskLevel.high then RiskLevel.high else RiskLevel.medium) = RiskLevel.high := by
  rw [if_pos hr]

/-- The humidity rule never lowers the risk level. -/
theorem humidityRule_mono (h : ℚ) (st : WeatherImpact) :
    st.riskLevel.toNat ≤ (humidityRule h st).riskLevel.toNat := by
  unfold humidityRule
  by_cases h1 : h > 90
  · rw [if_pos h1]; exact riskLevel_le_bump st.riskLevel
  · rw [if_neg h1]
    by_cases h2 : h < 30
    · rw [if_pos h2]; exact riskLevel_le_bump st.riskLevel
    · rw [if_neg h2]

/-- The wind rule never lowers the risk level. -/
theorem windRule_mono (w : WeatherData) (st : WeatherImpact) :
    st.riskLevel.toNat ≤ (windRule w st).riskLevel.toNat := by
  unfold windRule
  by_cases h1 : w.windSpeed > 15
  · rw [if_pos h1]; exact riskLevel_le_bump st.riskLevel
  · rw [if_neg h1]

/-- The pressure rule never lowers the risk level. -/
theorem pressureRule_mono (w : WeatherData) (st : WeatherImpact) :
    st.riskLevel.toNat ≤ (pressureRule w st).riskLevel.toNat := by
  unfold pressureRule
  by_cases h1 : w.pressure < 1000
  · rw [if_pos h1]; exact riskLevel_le_high st.riskLevel
  · rw [if_neg h1]

/-- The UV rule never lowers the risk level. -/
theorem uvRule_mono (w : WeatherData) (st : WeatherImpact) :
    st.riskLevel.toNat ≤ (uvRule w st).riskLevel.toNat := by
  unfold uvRule
  cases w.uvIndex with
  | none => exact Nat.le_refl _
  | some u =>
    dsimp only
    by_cases h1 : u ≠ 0 ∧ u > 8
    · rw [if_pos h1]; exact riskLevel_le_bump st.riskLevel
    · rw [if_neg h1]

/-- The visibility rule never lowers the risk level. -/
theorem visibilityRule_mono (w : WeatherData) (st : WeatherImpact) :
    st.riskLevel.toNat ≤ (visibilityRule w st).riskLevel.toNat := by
  unfold visibilityRule
  by_cases h1 : w.visibility < 1
  · rw [if_pos h1]; exact riskLevel_le_bump st.riskLevel
  · rw [if_neg h1]

/-- The humidity rule preserves a high risk level. -/
theorem humidityRule_high (h : ℚ) (st : WeatherImpact) (hr : st.riskLevel = .high) :
    (humidityRule h st).riskLevel = .high := by
  unfold humidityRule
  by_cases h1 : h > 90
  · rw [if_pos h1]; exact riskLevel_bump_high _ hr
  · rw [if_neg h1]
    by_cases h2 : h < 30
    · rw [if_pos h2]; exact riskLevel_bump_high _ hr
    · rw [if_neg h2]; exact hr

/-- The wind rule preserves a high risk level. -/
theorem windRule_high (w : WeatherData) (st : WeatherImpact) (hr : st.riskLevel = .high) :
    (windRule w st).riskLevel = .high := by
  unfold windRule
  by_cases h1 : w.windSpeed > 15
  · rw [if_pos h1]; exact riskLevel_bump_high _ hr
  · rw [if_neg h1]; exact hr

/-- The pressure rule preserves a high risk level. -/
theorem pressureRule_high (w : WeatherData) (st : WeatherImpact) (hr : st.riskLevel = .high) :
    (pressureRule w st).riskLevel = .high := by
  unfold pressureRule
  by_cases h1 : w.pressure < 1000
  · rw [if_pos h1]
  · rw [if_neg h1]; exact hr

/-- The UV rule preserves a high risk level. -/
theorem uvRule_high (w : WeatherData) (st : WeatherImpact) (hr : st.riskLevel = .high) :
    (uvRule w st).riskLevel = .high := by
  unfold uvRule
  cases w.uvIndex with
  | none => exact hr
  | some u =>
    dsimp only
    by_cases h1 : u ≠ 0 ∧ u > 8
    · rw [if_pos h1]; exact riskLevel_bump_high _ hr
    · rw [if_neg h1]; exact hr

/-- The visibility rule preserves a high risk level. -/
theorem visibilityRule_high (w : WeatherData) (st : WeatherImpact) (hr : st.riskLevel = .high) :
    (visibilityRule w st).riskLevel = .high := by
  unfold visibilityRule
  by_cases h1 : w.visibility < 1
  · rw [if_pos h1]; exact riskLevel_bump_high _ hr
  · rw [if_neg h1]; exact hr

/-- C5: the classifier's risk level is monotonic non-decreasing across the
fixed rule-evaluation sequence (it starts low and is never downgraded), and
any user temperature below 5 forces a final risk level of high regardless
of every other input. -/
theorem weather_risk_monotone (w : WeatherData) (s : SensorReading) :
    List.Chain' (fun a b => a.toNat ≤ b.toNat) (riskTrace w s) ∧
    (s.temperature < 5 → (analyzeWeatherImpact w s).riskLevel = .high) := by
  constructor
  · unfold riskTrace
    simp only [List.chain'_cons, List.chain'_singleton, and_true]
    exact ⟨Nat.zero_le _, humidityRule_mono _ _, windRule_mono _ _,
      pressureRule_mono _ _, uvRule_mono _ _, visibilityRule_mono _ _⟩
  · intro ht
    unfold analyzeWeatherImpact
    apply visibilityRule_high
    apply uvRule_high
    apply pressureRule_high
    apply windRule_high
    apply humidityRule_high
    unfold tempRule
    rw [if_pos ht]

/-- Witness for C5 at a concrete frosty reading (user temperature 2). -/
theorem weather_risk_monotone_witness :
    List.Chain' (fun a b => a.toNat ≤ b.toNat)
      (riskTrace
        { temperature := 18, humidity := 40, description := "clear",
          windSpeed := 3, pressure := 1015, visibility := 10,
          uvIndex := some 3, location := "test", timestamp := "now" }
        { temperature := 2, humidity := 50, soilMoisture := 45, ph := 6,
          lightIntensity := 18000, Nitrogen := 150, Phosphorus := 60,
          Potassium := 200, plantType := none }) ∧
    (analyzeWeatherImpact
        { temperature := 18, humidity := 40, description := "clear",
          windSpeed := 3, pressure := 1015, visibility := 10,
          uvIndex := some 3, location := "test", timestamp := "now" }
        { temperature := 2, humidity := 50, soilMoisture := 45, ph := 6,
          lightIntensity := 18000, Nitrogen := 150, Phosphorus := 60,
          Potassium := 200, plantType := none }).riskLevel = .high :=
  ⟨(weather_risk_monotone _ _).1, (weather_risk_monotone _ _).2 (by decide)⟩

/-- C6: on the snapshot with pressure 995, wind 5, visibility 10, UV 3 and
user temperature 20, humidity 50, the classifier returns risk high via the
pressure rule, with the storm issue and storm alert and no other issue. -/
theorem weather_storm_scenario :
    (analyzeWeatherImpact
        { temperature := 22, humidity := 60, description := "clouds",
          windSpeed := 5, pressure := 995, visibility := 10,
          uvIndex := some 3, location := "test", timestamp := "now" }
        { temperature := 20, humidity := 50, soilMoisture := 45, ph := 6,
          lightIntensity := 18000, Nitrogen := 150, Phosphorus := 60,
          Potassium := 200, plantType := none }).riskLevel = .high ∧
    (analyzeWeatherImpact
        { temperature := 22, humidity := 60, description := "clouds",
          windSpeed := 5, pressure := 995, visibility := 10,
          uvIndex := some 3, location := "test", timestamp := "now" }
        { temperature := 20, humidity := 50, soilMoisture := 45, ph := 6,
          lightIntensity := 18000, Nitrogen := 150, Phosphorus := 60,
          Potassium := 200, plantType := none }).issues =
      ["Low atmospheric pressure - storm conditions possible"] ∧
    (analyzeWeatherImpact
        { temperature := 22, humidity := 60, description := "clouds",
          windSpeed := 5, pressure := 995, visibility := 10,
          uvIndex := some 3, location := "test", timestamp := "now" }
        { temperature := 20, humidity := 50, soilMoisture := 45, ph := 6,
          lightIntensity := 18000, Nitrogen := 150, Phosphorus := 60,
          Potassium := 200, plantType := none }).weatherAlerts =
      ["STORM WARNING: Low pressure indicates potential severe weather"] := by
  decide

/-! ## The optimal-range parser and status classifier
(`parseOptimalRange`, `getConditionStatus` in `src/app/page.tsx`).  The
regex `(\d+(?:\.\d+)?)\s*-\s*(\d+(?:\.\d+)?)` is embedded as a
leftmost-match scanner.  Greedy digit runs lose nothing here: after `\d+`
the pattern continues with `.`, `\s`, `-` or the end, none of which is a
digit, so backtracking into a shorter digit run can never succeed. -/

/-- Maximal leading digit run (`\d+`, greedy) and the rest. -/
def takeDigits : List Char → List Char × List Char
  | [] => ([], [])
  | c :: rest =>
    if c.isDigit then
      let (ds, r) := takeDigits rest
      (c :: ds, r)
    else ([], c :: rest)

/-- Numeric value of a digit run. -/
def digitsToNat (ds : List Char) : ℕ :=
  ds.foldl (fun n c => 10 * n + (c.toNat - 48)) 0

/-- Value of `parseFloat` on a matched group `"<ds>"` or `"<ds>.<fs>"`. -/
def ratOfDigits (ds fs : List Char) : ℚ :=
  if fs.isEmpty then (digitsToNat ds : ℚ)
  else (digitsToNat ds : ℚ) + (digitsToNat fs : ℚ) / (10 : ℚ) ^ fs.length

/-- Match the first group `\d+(?:\.\d+)?` at the head of the input.  The
pattern continues with `\s*-`, so when a decimal point is present but not
followed by digits, both the with-fraction and the without-fraction
alternatives fail (the next char would be `.`): the group fails. -/
def matchFirstNumber (l : List Char) : Option (ℚ × List Char) :=
  let (ds, r1) := takeDigits l
  if ds.isEmpty then none
  else
    match r1 with
    | '.' :: r2 =>
      let (fs, r3) := takeDigits r2
      if fs.isEmpty then none else some (ratOfDigits ds fs, r3)
    | _ => some (ratOfDigits ds [], r1)

/-- Match the second group `\d+(?:\.\d+)?` at the head of the input.  The
pattern ends here, so a decimal point without following digits simply
leaves the optional fraction unmatched. -/
def matchSecondNumber (l : List Char) : Option ℚ :=
  let (ds, r1) := takeDigits l
  if ds.isEmpty then none
  else
    match r1 with
    | '.' :: r2 =>
      let (fs, _) := takeDigits r2
      if fs.isEmpty then some (ratOfDigits ds []) else some (ratOfDigits ds fs)
    | _ => some (ratOfDigits ds [])

/-- Match the whole pattern `(\d+(?:\.\d+)?)\s*-\s*(\d+(?:\.\d+)?)`
anchored at the head of the input. -/
def matchAt (l : List Char) : Option (ℚ × ℚ) :=
  match matchFirstNumber l with
  | none => none
  | some (n1, r1) =>
    match r1.dropWhile Char.isWhitespace with
    | '-' :: r3 =>
      match matchSecondNumber (r3.dropWhile Char.isWhitespace) with
      | none => none
      | some n2 => some (n1, n2)
    | _ => none

/-- Leftmost match: try the pattern at each start position in turn, as
`String.prototype.match` does with a non-global, non-anchored regex. -/
def findNumberPair : List Char → Option (ℚ × ℚ)
  | [] => none
  | c :: rest =>
    match matchAt (c :: rest) with
    | some p => some p
    | none => findNumberPair rest

/-- The function `parseOptimalRange` from `src/app/page.tsx`: the (min, max) pair of the
first `"<number>-<number>"` occurrence, or `none` when the regex does not
match. -/
def parseOptimalRange (optimalString : String) : Option (ℚ × ℚ) :=
  findNumberPair optimalString.data

/-- Whether the string contains the `"<number>-<number>"` pattern at some
position. -/
def hasRangePattern (s : String) : Bool :=
  s.data.tails.any fun t => (matchAt t).isSome

/-- The status classification used for display coloring. -/
inductive CondStatus where
  | low
  | optimal
  | high
  deriving Repr, DecidableEq

/-- The function `getConditionStatus` from `src/app/page.tsx`: `low` below the range,
`high` above it, `optimal` otherwise — and always `optimal` when the range
is unknown. -/
def getConditionStatus (currentValue : ℚ) (optimalRange : Option (ℚ × ℚ)) : CondStatus :=
  match optimalRange with
  | none => .optimal
  | some r =>
    if currentValue < r.1 then .low
    else if currentValue > r.2 then .high
    else .optimal

/-- The scanner finds nothing exactly when the pattern matches at no
position. -/
theorem findNumberPair_none_iff (l : List Char) :
    findNumberPair l = none ↔ (l.tails.any fun t => (matchAt t).isSome) = false := by
  induction l with
  | nil => decide
  | cons c rest ih =>
    rw [findNumberPair]
    cases hm : matchAt (c :: rest) with
    | some p => simp [hm, List.tails_cons]
    | none => simp [hm, List.tails_cons, ih]

/-- C7: parsing "18-25°C" yields (18, 25); a string in which the pattern
matches nowhere parses to `none`; an unknown range classifies every value
as optimal; and for a parsed range respecting the data-model invariant
min ≤ max, the status is low iff the value is below min, high iff above
max, and optimal otherwise (boundary values are optimal). -/
theorem parse_range_and_status (v mn mx : ℚ) (s : String) :
    parseOptimalRange "18-25°C" = some (18, 25) ∧
    (hasRangePattern s = false → parseOptimalRange s = none) ∧
    getConditionStatus v none = CondStatus.optimal ∧
    (mn ≤ mx →
      ((getConditionStatus v (some (mn, mx)) = CondStatus.low ↔ v < mn) ∧
       (getConditionStatus v (some (mn, mx)) = CondStatus.high ↔ v > mx) ∧
       (getConditionStatus v (some (mn, mx)) = CondStatus.optimal ↔ mn ≤ v ∧ v ≤ mx))) := by
  refine ⟨by decide, ?_, rfl, ?_⟩
  · intro h
    exact (findNumberPair_none_iff _).mpr h
  · intro hle
    dsimp only [getConditionStatus]
    split_ifs with h1 h2
    · exact ⟨⟨fun _ => h1, fun _ => rfl⟩,
        ⟨fun h => (nomatch h),
         fun hv => (not_lt.mpr (h1.le.trans hle) hv).elim⟩,
        ⟨fun h => (nomatch h),
         fun hv => absurd hv.1 (not_le.mpr h1)⟩⟩
    · exact ⟨⟨fun h => (nomatch h), fun hv => absurd hv h1⟩,
        ⟨fun _ => h2, fun _ => rfl⟩,
        ⟨fun h => (nomatch h),
         fun hv => absurd h2 (not_lt.mpr hv.2)⟩⟩
    · exact ⟨⟨fun h => (nomatch h), fun hv => absurd hv h1⟩,
        ⟨fun h => (nomatch h), fun hv => absurd hv h2⟩,
        ⟨fun _ => ⟨not_lt.mp h1, not_lt.mp h2⟩, fun _ => rfl⟩⟩

/-- Witness for C7: a concrete pattern-free string parses to none, and a
concrete in-range value classifies as optimal. -/
theorem parse_range_and_status_witness :
    parseOptimalRange "no numeric range here" = none ∧
    (getConditionStatus 20 (some (18, 25)) = CondStatus.optimal ↔
      (18 : ℚ) ≤ 20 ∧ (20 : ℚ) ≤ 25) :=
  ⟨(parse_range_and_status 20 18 25 "no numeric range here").2.1 (by decide),
   ((parse_range_and_status 20 18 25 "no numeric range here").2.2.2 (by decide)).2.2⟩

/-! ## The request handler `POST` (eight-field variant, lines 463-615 of
the route file).  The outbound calls (weather lookup, generative-AI call)
are modelled as oracles in a `HandlerEnv`; the handler's own control flow
— body parsing, validation, fallback selection and response statuses — is
translated from the source. -/

/-- A parsed JSON request body: every field possibly `undefined`. -/
structure RequestBody where
  temperature : Option ℚ
  humidity : Option ℚ
  soilMoisture : Option ℚ
  ph : Option ℚ
  lightIntensity : Option ℚ
  Nitrogen : Option ℚ
  Phosphorus : Option ℚ
  Potassium : Option ℚ
  plantType : Option String
  latitude : Option ℚ
  longitude : Option ℚ
  deriving Repr, DecidableEq

/-- Dynamic field access `sensorData[field] === undefined`. -/
def fieldIsUndefined (b : RequestBody) : String → Bool
  | "temperature" => b.temperature.isNone
  | "humidity" => b.humidity.isNone
  | "soilMoisture" => b.soilMoisture.isNone
  | "ph" => b.ph.isNone
  | "lightIntensity" => b.lightIntensity.isNone
  | "Nitrogen" => b.Nitrogen.isNone
  | "Phosphorus" => b.Phosphorus.isNone
  | "Potassium" => b.Potassium.isNone
  | _ => true

/-- The handler's `requiredFields` list, in source order. -/
def requiredFields : List String :=
  ["temperature", "humidity", "soilMoisture", "ph", "lightIntensity",
   "Nitrogen", "Phosphorus", "Potassium"]

/-- The list `requiredFields.filter(field => sensorData[field] === undefined)`. -/
def missingFields (b : RequestBody) : List String :=
  requiredFields.filter fun f => fieldIsUndefined b f

/-- The validated body as a sensor reading.  The `getD 0` defaults are
never observed: the handler reaches the engines only after the validation
gate has established that all eight fields are present. -/
def readingOfBody (b : RequestBody) : SensorReading :=
  { temperature := b.temperature.getD 0
    humidity := b.humidity.getD 0
    soilMoisture := b.soilMoisture.getD 0
    ph := b.ph.getD 0
    lightIntensity := b.lightIntensity.getD 0
    Nitrogen := b.Nitrogen.getD 0
    Phosphorus := b.Phosphorus.getD 0
    Potassium := b.Potassium.getD 0
    plantType := b.plantType }

/-- The guard `if (sensorData.latitude && sensorData.longitude)`: JavaScript
truthiness, so an absent coordinate or the number 0 skips the weather
lookup. -/
def coordsTruthy (b : RequestBody) : Bool :=
  (match b.latitude with
   | some v => decide (v ≠ 0)
   | none => false) &&
  (match b.longitude with
   | some v => decide (v ≠ 0)
   | none => false)

/-- The handler's external collaborators, as oracles: the Gemini API key
(absent or empty is falsy), the weather lookup's result when invoked, and
the generative-AI path's outcome (`none` = transport/quota/parse failure,
which the handler recovers from via the fallback engine). -/
structure HandlerEnv where
  geminiKey : Option String
  weatherResult : Option WeatherData
  aiResult : Option AssessmentResult
  deriving Repr, DecidableEq

/-- The test `!process.env.GEMINI_API_KEY`: absent or empty string. -/
def geminiKeyFalsy (env : HandlerEnv) : Bool :=
  match env.geminiKey with
  | none => true
  | some k => k = ""

/-- A handler response: 200 with a merged payload, 400 on validation
failure, 500 on a processing failure (unparseable body). -/
inductive HandlerResponse where
  | ok (body : AssessmentResult) (weatherData : Option WeatherData)
      (weatherImpact : Option WeatherImpact)
  | badRequest (error : String)
  | serverError (error : String)
  deriving Repr, DecidableEq

/-- HTTP status of a response. -/
def HandlerResponse.status : HandlerResponse → ℕ
  | .ok _ _ _ => 200
  | .badRequest _ => 400
  | .serverError _ => 500

/-- The `POST` handler: parse (a failure is the outer catch, 500),
validate required fields (400 listing the missing names), optionally fetch
weather and compute its impact, then answer 200 with either the AI
prediction or the fallback result. -/
def POST (parsedBody : Option RequestBody) (env : HandlerEnv) : HandlerResponse :=
  match parsedBody with
  | none => .serverError "Failed to process request"
  | some sensorData =>
    if (missingFields sensorData).length > 0 then
      .badRequest ("Missing required fields: " ++
        String.intercalate ", " (missingFields sensorData))
    else
      let weatherData : Option WeatherData :=
        if coordsTruthy sensorData then env.weatherResult else none
      let weatherImpact : Option WeatherImpact :=
        weatherData.map fun w => analyzeWeatherImpact w (readingOfBody sensorData)
      if geminiKeyFalsy env then
        .ok (getFallbackData (readingOfBody sensorData)) weatherData weatherImpact
      else
        match env.aiResult with
        | some prediction => .ok prediction weatherData weatherImpact
        | none => .ok (getFallbackData (readingOfBody sensorData)) weatherData weatherImpact

/-- The missing-field list is nonempty exactly when one of the eight
required fields is undefined. -/
theorem missingFields_ne_nil_iff (b : RequestBody) :
    missingFields b ≠ [] ↔
      (b.temperature = none ∨ b.humidity = none ∨ b.soilMoisture = none ∨
       b.ph = none ∨ b.lightIntensity = none ∨ b.Nitrogen = none ∨
       b.Phosphorus = none ∨ b.Potassium = none) := by
  have h1 : fieldIsUndefined b "temperature" = b.temperature.isNone := rfl
  have h2 : fieldIsUndefined b "humidity" = b.humidity.isNone := rfl
  have h3 : fieldIsUndefined b "soilMoisture" = b.soilMoisture.isNone := rfl
  have h4 : fieldIsUndefined b "ph" = b.ph.isNone := rfl
  have h5 : fieldIsUndefined b "lightIntensity" = b.lightIntensity.isNone := rfl
  have h6 : fieldIsUndefined b "Nitrogen" = b.Nitrogen.isNone := rfl
  have h7 : fieldIsUndefined b "Phosphorus" = b.Phosphorus.isNone := rfl
  have h8 : fieldIsUndefined b "Potassium" = b.Potassium.isNone := rfl
  rw [missingFields, Ne, List.filter_eq_nil_iff]
  push_neg
  simp [requiredFields, h1, h2, h3, h4, h5, h6, h7, h8, Option.isNone_iff_eq_none]

/-- C8: the handler answers 400 exactly when the body parsed and at least
one of the eight required fields is undefined; the 400 error message lists
exactly the missing field names in source order; no other branch of the
handler produces a 400. -/
theorem post_validation (pb : Option RequestBody) (env : HandlerEnv) :
    ((POST pb env).status = 400 ↔ ∃ b, pb = some b ∧ missingFields b ≠ []) ∧
    (∀ b, pb = some b → missingFields b ≠ [] →
      POST pb env = .badRequest ("Missing required fields: " ++
        String.intercalate ", " (missingFields b))) ∧
    (∀ b, missingFields b ≠ [] ↔
      (b.temperature = none ∨ b.humidity = none ∨ b.soilMoisture = none ∨
       b.ph = none ∨ b.lightIntensity = none ∨ b.Nitrogen = none ∨
       b.Phosphorus = none ∨ b.Potassium = none)) := by
  refine ⟨?_, ?_, fun b => missingFields_ne_nil_iff b⟩
  · cases pb with
    | none => simp [POST, HandlerResponse.status]
    | some b =>
      by_cases hm : (missingFields b).length > 0
      · simp only [POST, if_pos hm]
        simp [HandlerResponse.status, List.length_pos.mp hm]
      · simp only [POST, if_neg hm]
        have hnil : missingFields b = [] := by
          rcases Nat.eq_zero_or_pos (missingFields b).length with h | h
          · exact List.length_eq_zero.mp h
          · exact absurd h hm
        by_cases hk : geminiKeyFalsy env = true
        · simp [hk, HandlerResponse.status, hnil]
        · simp only [Bool.not_eq_true] at hk
          cases ha : env.aiResult <;>
            simp [hk, ha, HandlerResponse.status, hnil]
  · intro b hb hne
    subst hb
    have hm : (missingFields b).length > 0 := List.length_pos.mpr hne
    simp only [POST, if_pos hm]

/-- Witness for C8 at a concrete body with `ph` and `Potassium` absent. -/
theorem post_validation_witness :
    (POST (some
      { temperature := some 20, humidity := some 50, soilMoisture := some 45,
        ph := none, lightIntensity := some 18000, Nitrogen := some 150,
        Phosphorus := some 60, Potassium := none, plantType := none,
        latitude := none, longitude := none })
      { geminiKey := none, weatherResult := none, aiResult := none }).status = 400 ∧
    POST (some
      { temperature := some 20, humidity := some 50, soilMoisture := some 45,
        ph := none, lightIntensity := some 18000, Nitrogen := some 150,
        Phosphorus := some 60, Potassium := none, plantType := none,
        latitude := none, longitude := none })
      { geminiKey := none, weatherResult := none, aiResult := none } =
      .badRequest "Missing required fields: ph, Potassium" :=
  ⟨(post_validation _ _).1.mpr ⟨_, rfl, by decide⟩,
   ((post_validation _ _).2.1 _ rfl (by decide)).trans (by decide)⟩

end Plantologica
